import Mathlib

/-!
Verification of the mortgage default risk dashboard (`src/app.py`).

Shallow embedding: the app's logical core is three derived financial
ratios (lines 104-106), a three-band threshold cascade used in three
places (gauge color, lines 138-143; risk label and card color, lines
168-176; recommendation text, lines 208-213), and one call into the
external classifier (`model.predict_proba(input_data)[0][1]`, line 166).
Real-valued quantities are embedded as rationals; Python `float`
literals 0.2 and 0.4 become the rationals 1/5 and 2/5.
-/

namespace MortgageDashboard

/-- Education selectbox options (line 93). -/
inductive Education
  | highSchool
  | bachelor
  | master
  | phd
  deriving DecidableEq, Repr

/-- Employment type selectbox options (line 94). -/
inductive EmploymentType
  | salaried
  | selfEmployed
  | unemployed
  deriving DecidableEq, Repr

/-- Marital status selectbox options (line 95). -/
inductive MaritalStatus
  | single
  | married
  | divorced
  deriving DecidableEq, Repr

/-- Loan purpose selectbox options (line 98). -/
inductive LoanPurpose
  | homePurchase
  | refinance
  | investment
  deriving DecidableEq, Repr

/-- The borrower input record: the 16 sidebar fields (lines 83-99).
Sliders give integers or rationals; `income` and `loan_amount` come from
unbounded `st.number_input` widgets, so they are arbitrary rationals
(including negative values). `num_credit_lines` is a slider with lower
bound 0, embedded as a natural number. -/
structure BorrowerRecord where
  age : ℤ
  income : ℚ
  loan_amount : ℚ
  credit_score : ℤ
  months_employed : ℤ
  num_credit_lines : ℕ
  interest_rate : ℚ
  loan_term : ℕ
  dti_ratio : ℚ
  education : Education
  employment_type : EmploymentType
  marital_status : MaritalStatus
  has_mortgage : Bool
  has_dependents : Bool
  loan_purpose : LoanPurpose
  has_cosigner : Bool
  deriving DecidableEq, Repr

/-- Line 104: `loan_to_income = loan_amount / income if income > 0 else 0`. -/
def loan_to_income (loan_amount income : ℚ) : ℚ :=
  if income > 0 then loan_amount / income else 0

/-- Line 105: `employment_ratio = months_employed / age if age > 0 else 0`. -/
def employment_ratio (months_employed : ℤ) (age : ℤ) : ℚ :=
  if age > 0 then (months_employed : ℚ) / (age : ℚ) else 0

/-- Line 106: `credit_utilization_proxy = loan_amount / (num_credit_lines + 1)`. -/
def credit_utilization_proxy (loan_amount : ℚ) (num_credit_lines : ℕ) : ℚ :=
  loan_amount / ((num_credit_lines : ℚ) + 1)

/-- The single-row `input_data` DataFrame (lines 108-128): the base
borrower fields together with the three derived features. -/
structure ExtendedRecord where
  base : BorrowerRecord
  loanToIncome : ℚ
  employmentRatio : ℚ
  creditUtilizationProxy : ℚ
  deriving DecidableEq, Repr

/-- Feature derivation (lines 104-128): builds the extended record from
the base record, recomputing the three ratios from the base fields. -/
def derive (r : BorrowerRecord) : ExtendedRecord :=
  { base := r
    loanToIncome := loan_to_income r.loan_amount r.income
    employmentRatio := employment_ratio r.months_employed r.age
    creditUtilizationProxy := credit_utilization_proxy r.loan_amount r.num_credit_lines }

/-- The three ordinal risk bands named by the label cascade. -/
inductive RiskTier
  | low
  | moderate
  | high
  deriving DecidableEq, Repr

/-- Ordinal rank of a tier: Low < Moderate < High. -/
def RiskTier.rank : RiskTier → ℕ
  | .low => 0
  | .moderate => 1
  | .high => 2

/-- The tier selected by the cascade at lines 168-176 (`if probability
< 0.2 ... elif probability < 0.4 ... else ...`). -/
def classify (p : ℚ) : RiskTier :=
  if p < 1/5 then .low
  else if p < 2/5 then .moderate
  else .high

/-- Lines 168-176: the risk label string and card color assigned by the
cascade. -/
def risk_level (p : ℚ) : String × String :=
  if p < 1/5 then ("🟢 Low Risk", "#2ecc71")
  else if p < 2/5 then ("🟡 Moderate Risk", "#f39c12")
  else ("🔴 High Risk", "#e74c3c")

/-- Lines 208-213: the recommendation text chosen by the same cascade. -/
def recommendation (p : ℚ) : String :=
  if p < 1/5 then "Loan can be approved under standard underwriting guidelines."
  else if p < 2/5 then "Proceed with caution. Consider additional verification or adjusted pricing."
  else "High default risk detected. Recommend rejection or strong compensating factors."

/-- Lines 138-143 inside `plot_gauge`: the gauge bar color cascade. -/
def gauge_color (p : ℚ) : String :=
  if p < 1/5 then "#2ecc71"
  else if p < 2/5 then "#f39c12"
  else "#e74c3c"

/-- The color associated with each tier by the label cascade
(lines 168-176). -/
def tier_color : RiskTier → String
  | .low => "#2ecc71"
  | .moderate => "#f39c12"
  | .high => "#e74c3c"

/-- The assessment output rendered by the button handler
(lines 164-213): probability metric, label and card color, gauge
color, and recommendation text. -/
structure AssessmentResult where
  probability : ℚ
  riskLabel : String
  cardColor : String
  gaugeColor : String
  recommendationText : String
  deriving DecidableEq, Repr

/-- The button handler (lines 164-213). The external classifier is an
opaque scoring function whose contract is
`predict_proba(record) -> [p_no_default, p_default]`; line 166 takes
`[0][1]`, the second component of the single row, embedded here as
`.2` of the returned pair. The handler runs unconditionally on the
current inputs: there is no validation branch. -/
def assess (predict_proba : ExtendedRecord → ℚ × ℚ) (r : BorrowerRecord) : AssessmentResult :=
  let input_data := derive r
  let probability := (predict_proba input_data).2
  { probability := probability
    riskLabel := (risk_level probability).1
    cardColor := (risk_level probability).2
    gaugeColor := gauge_color probability
    recommendationText := recommendation probability }

/-- The default sidebar values (lines 83-99): age 35, income 80000,
loan 200000, credit score 650, 60 months employed, 5 credit lines,
rate 7.5, term 120, DTI 0.35, with the first option of each selectbox. -/
def defaultRecord : BorrowerRecord :=
  { age := 35
    income := 80000
    loan_amount := 200000
    credit_score := 650
    months_employed := 60
    num_credit_lines := 5
    interest_rate := 15/2
    loan_term := 120
    dti_ratio := 7/20
    education := .highSchool
    employment_type := .salaried
    marital_status := .single
    has_mortgage := true
    has_dependents := true
    loan_purpose := .homePurchase
    has_cosigner := true }

/-- An out-of-domain record: same as the defaults except the income
number input is set to -1, which the widget accepts (no lower bound). -/
def negIncomeRecord : BorrowerRecord :=
  { defaultRecord with income := -1 }

end MortgageDashboard

namespace MortgageDashboard

/-- C1: for every probability p in [0,1] the tiering cascade assigns
exactly one band with exclusive lower bounds: p < 0.20 is Low with the
approve recommendation, 0.20 ≤ p < 0.40 is Moderate with the caution
recommendation, p ≥ 0.40 is High with the rejection recommendation;
in particular classify 0.20 = Moderate and classify 0.40 = High. -/
theorem classify_bands (p : ℚ) (h0 : 0 ≤ p) (h1 : p ≤ 1) :
    (p < 1/5 → classify p = .low ∧
      recommendation p = "Loan can be approved under standard underwriting guidelines.") ∧
    (1/5 ≤ p → p < 2/5 → classify p = .moderate ∧
      recommendation p = "Proceed with caution. Consider additional verification or adjusted pricing.") ∧
    (2/5 ≤ p → classify p = .high ∧
      recommendation p = "High default risk detected. Recommend rejection or strong compensating factors.") ∧
    classify (1/5) = .moderate ∧ classify (2/5) = .high := by
  unfold classify recommendation
  refine ⟨fun h => ?_, fun hlo hhi => ?_, fun h => ?_, by norm_num, by norm_num⟩
  · rw [if_pos h, if_pos h]
    exact ⟨rfl, rfl⟩
  · rw [if_neg (not_lt.mpr hlo), if_pos hhi, if_neg (not_lt.mpr hlo), if_pos hhi]
    exact ⟨rfl, rfl⟩
  · have h1n : ¬ p < 1/5 := by push_neg; linarith
    have h2n : ¬ p < 2/5 := not_lt.mpr h
    rw [if_neg h1n, if_neg h2n, if_neg h1n, if_neg h2n]
    exact ⟨rfl, rfl⟩

/-- Witness for `classify_bands` at p = 1/2. -/
theorem classify_bands_witness :
    classify (1/2) = .high ∧
    recommendation (1/2) =
      "High default risk detected. Recommend rejection or strong compensating factors." :=
  (classify_bands (1/2) (by norm_num) (by norm_num)).2.2.1 (by norm_num)

/-- C2: loanToIncome is 0 for every income ≤ 0 (no division error) and
loanAmount/income for every income > 0; income 80000 with loan 200000
gives 2.5. -/
theorem loan_to_income_spec (la inc : ℚ) :
    (inc ≤ 0 → loan_to_income la inc = 0) ∧
    (0 < inc → loan_to_income la inc = la / inc) ∧
    loan_to_income 200000 80000 = 5/2 := by
  refine ⟨fun h => ?_, fun h => ?_, by norm_num [loan_to_income]⟩
  · simp [loan_to_income, not_lt.mpr h]
  · simp [loan_to_income, h]

/-- Witness for `loan_to_income_spec` at income -1 and income 80000. -/
theorem loan_to_income_spec_witness :
    loan_to_income 200000 (-1) = 0 ∧ loan_to_income 200000 80000 = 200000 / 80000 :=
  ⟨(loan_to_income_spec 200000 (-1)).1 (by norm_num),
   (loan_to_income_spec 200000 80000).2.1 (by norm_num)⟩

/-- C3: employmentRatio is 0 for every age ≤ 0 and monthsEmployed/age
for every age > 0; age 35 with 60 months employed gives exactly 60/35
= 12/7 ≈ 1.714286. -/
theorem employment_ratio_spec (m a : ℤ) :
    (a ≤ 0 → employment_ratio m a = 0) ∧
    (0 < a → employment_ratio m a = (m : ℚ) / (a : ℚ)) ∧
    employment_ratio 60 35 = 12/7 := by
  refine ⟨fun h => ?_, fun h => ?_, by norm_num [employment_ratio]⟩
  · simp [employment_ratio, not_lt.mpr h]
  · simp [employment_ratio, h]

/-- Witness for `employment_ratio_spec` at age -1 and age 35. -/
theorem employment_ratio_spec_witness :
    employment_ratio 60 (-1) = 0 ∧ employment_ratio 60 35 = (60 : ℚ) / (35 : ℚ) :=
  ⟨(employment_ratio_spec 60 (-1)).1 (by norm_num),
   (employment_ratio_spec 60 35).2.1 (by norm_num)⟩

/-- C4: creditUtilizationProxy equals loanAmount/(numCreditLines+1) and
the denominator is never zero for any natural numCreditLines, so no
division-by-zero branch is reachable; loan 200000 with 5 credit lines
gives exactly 200000/6 = 100000/3 ≈ 33333.33. -/
theorem credit_utilization_proxy_spec (la : ℚ) (n : ℕ) :
    credit_utilization_proxy la n = la / ((n : ℚ) + 1) ∧
    ((n : ℚ) + 1) ≠ 0 ∧
    credit_utilization_proxy 200000 5 = 100000/3 := by
  refine ⟨rfl, by positivity, by norm_num [credit_utilization_proxy]⟩

/-- C5: for every probability the gauge color cascade in `plot_gauge`
agrees with the color the tier cascade assigns; both equal the color
associated with the tier, so presentation maps 1:1 from the tier. -/
theorem gauge_color_matches_tier (p : ℚ) :
    gauge_color p = tier_color (classify p) ∧
    (risk_level p).2 = tier_color (classify p) := by
  unfold gauge_color classify risk_level
  split_ifs <;> exact ⟨rfl, rfl⟩

end MortgageDashboard

namespace MortgageDashboard

/-- Counterexample to C6: an out-of-domain record (income = -1, below
the declared non-negative domain) is not rejected: feature derivation
runs on it and produces an ordinary extended record, and the button
handler produces a full assessment from it. -/
theorem invalid_input_not_rejected :
    negIncomeRecord.income < 0 ∧
    derive negIncomeRecord =
      { base := negIncomeRecord
        loanToIncome := 0
        employmentRatio := 12/7
        creditUtilizationProxy := 100000/3 } ∧
    (assess (fun _ => (9/10, 1/10)) negIncomeRecord).riskLabel = "🟢 Low Risk" := by
  refine ⟨by norm_num [negIncomeRecord, defaultRecord], ?_, ?_⟩
  · show derive negIncomeRecord = _
    unfold derive loan_to_income employment_ratio credit_utilization_proxy
    norm_num [negIncomeRecord, defaultRecord]
  · show (assess (fun _ => (9/10, 1/10)) negIncomeRecord).riskLabel = _
    unfold assess risk_level
    norm_num

/-- C6 amended: the code performs no input-domain validation; every
record, in-domain or not, flows into feature derivation and then into
the assessment, with the base fields carried through unchanged (no
clamping), and the only value replacement is the two divide-by-zero
guards: income ≤ 0 forces loanToIncome to 0 and age ≤ 0 forces
employmentRatio to 0, while positive denominators give the plain
quotients. -/
theorem derivation_unconditional (m : ExtendedRecord → ℚ × ℚ) (r : BorrowerRecord) :
    (derive r).base = r ∧
    (assess m r).probability = (m (derive r)).2 ∧
    (r.income ≤ 0 → (derive r).loanToIncome = 0) ∧
    (0 < r.income → (derive r).loanToIncome = r.loan_amount / r.income) ∧
    (r.age ≤ 0 → (derive r).employmentRatio = 0) ∧
    (0 < r.age → (derive r).employmentRatio = (r.months_employed : ℚ) / (r.age : ℚ)) := by
  refine ⟨rfl, rfl, fun h => ?_, fun h => ?_, fun h => ?_, fun h => ?_⟩
  · show loan_to_income r.loan_amount r.income = 0
    simp [loan_to_income, not_lt.mpr h]
  · show loan_to_income r.loan_amount r.income = _
    simp [loan_to_income, h]
  · show employment_ratio r.months_employed r.age = 0
    simp [employment_ratio, not_lt.mpr h]
  · show employment_ratio r.months_employed r.age = _
    simp [employment_ratio, h]

/-- Witness for `derivation_unconditional` at the record with income -1. -/
theorem derivation_unconditional_witness :
    (derive negIncomeRecord).base = negIncomeRecord ∧
    (derive negIncomeRecord).loanToIncome = 0 :=
  ⟨(derivation_unconditional (fun _ => (0, 0)) negIncomeRecord).1,
   (derivation_unconditional (fun _ => (0, 0)) negIncomeRecord).2.2.1
     (by norm_num [negIncomeRecord, defaultRecord])⟩

/-- C7: the tier is monotone non-decreasing in the ordinal order
Low < Moderate < High as the probability increases, with the exact
boundary behavior: any p < 0.2 is Low, any p in [0.2, 0.4) is Moderate,
classify 0.2 = Moderate and classify 0.4 = High. -/
theorem classify_monotone (p q : ℚ) (hpq : p ≤ q) :
    (classify p).rank ≤ (classify q).rank ∧
    (p < 1/5 → classify p = .low) ∧
    (1/5 ≤ p → p < 2/5 → classify p = .moderate) ∧
    classify (1/5) = .moderate ∧ classify (2/5) = .high := by
  unfold classify
  refine ⟨?_, fun h => ?_, fun hlo hhi => ?_, by norm_num, by norm_num⟩
  · split_ifs <;> simp [RiskTier.rank] <;> linarith
  · rw [if_pos h]
  · rw [if_neg (not_lt.mpr hlo), if_pos hhi]

/-- Witness for `classify_monotone` at p = 1/10 and q = 3/10. -/
theorem classify_monotone_witness :
    (classify (1/10)).rank ≤ (classify (3/10)).rank ∧ classify (1/10) = .low :=
  ⟨(classify_monotone (1/10) (3/10) (by norm_num)).1,
   (classify_monotone (1/10) (3/10) (by norm_num)).2.1 (by norm_num)⟩

/-- C8: for every classifier and every record, the probability the
handler displays, and from which it computes the risk label, the gauge
color and the recommendation, is the second component (p_default) of
the classifier output for the single derived record. -/
theorem probability_is_p_default (m : ExtendedRecord → ℚ × ℚ) (r : BorrowerRecord) :
    (assess m r).probability = (m (derive r)).2 ∧
    (assess m r).riskLabel = (risk_level ((m (derive r)).2)).1 ∧
    (assess m r).gaugeColor = gauge_color ((m (derive r)).2) ∧
    (assess m r).recommendationText = recommendation ((m (derive r)).2) :=
  ⟨rfl, rfl, rfl, rfl⟩

/-- C9: feature derivation is a deterministic pure function of the base
record: two calls on the same base record give identical extended
records, the base fields are carried through unchanged, and each
derived field equals the corresponding pure ratio of the base fields. -/
theorem derive_deterministic (r : BorrowerRecord) :
    derive r = derive r ∧
    (derive r).base = r ∧
    (derive r).loanToIncome = loan_to_income r.loan_amount r.income ∧
    (derive r).employmentRatio = employment_ratio r.months_employed r.age ∧
    (derive r).creditUtilizationProxy = credit_utilization_proxy r.loan_amount r.num_credit_lines :=
  ⟨rfl, rfl, rfl, rfl, rfl⟩

/-- C10: over the declared input domain (income ≥ 0, loanAmount ≥ 0,
monthsEmployed ≥ 0, age ≥ 18, any natural numCreditLines) all three
derived ratios are non-negative. -/
theorem derived_ratios_nonneg (r : BorrowerRecord)
    (hinc : 0 ≤ r.income) (hla : 0 ≤ r.loan_amount)
    (hme : 0 ≤ r.months_employed) (hage : 18 ≤ r.age) :
    0 ≤ (derive r).loanToIncome ∧
    0 ≤ (derive r).employmentRatio ∧
    0 ≤ (derive r).creditUtilizationProxy := by
  refine ⟨?_, ?_, ?_⟩
  · show 0 ≤ loan_to_income r.loan_amount r.income
    unfold loan_to_income
    split_ifs with h
    · exact div_nonneg hla h.le
    · exact le_refl 0
  · show 0 ≤ employment_ratio r.months_employed r.age
    unfold employment_ratio
    split_ifs with h
    · have hm : (0 : ℚ) ≤ (r.months_employed : ℚ) := by exact_mod_cast hme
      have ha : (0 : ℚ) ≤ (r.age : ℚ) := by exact_mod_cast (by linarith : (0 : ℤ) ≤ r.age)
      exact div_nonneg hm ha
    · exact le_refl 0
  · show 0 ≤ credit_utilization_proxy r.loan_amount r.num_credit_lines
    unfold credit_utilization_proxy
    exact div_nonneg hla (by positivity)

/-- Witness for `derived_ratios_nonneg` at the default sidebar record. -/
theorem derived_ratios_nonneg_witness :
    0 ≤ (derive defaultRecord).loanToIncome ∧
    0 ≤ (derive defaultRecord).employmentRatio ∧
    0 ≤ (derive defaultRecord).creditUtilizationProxy :=
  derived_ratios_nonneg defaultRecord (by norm_num [defaultRecord])
    (by norm_num [defaultRecord]) (by norm_num [defaultRecord]) (by norm_num [defaultRecord])

end MortgageDashboard
